import Mathlib

/-!
Shallow embedding of `myproject/watch_data/watch_data.py` (Apple Watch data
analysis module) and proofs about its specified behaviour.

Modelling conventions:
* Python floats are modelled as exact rationals (`ℚ`); the arithmetic in the
  source is plain multiplication/division, so values are exact.
* Python exceptions are modelled with `Except PyErr`; each distinct `raise`
  site (or runtime error site) of the source gets its own `PyErr` constructor.
* An XML element is its attribute mapping (`Element`); the streamed document
  is the list of elements yielded by `iterparse` in document order.
* `datetime.strptime` of the wire format `YYYY-MM-DD HH:MM:SS ±HHMM` is Python
  standard library; a parsed timestamp is represented by a `PyDatetime` value
  and instants are compared via proleptic-Gregorian second counts, which is how
  Python `datetime` arithmetic behaves.
-/

/-- Runtime errors raised by the source module.  Each constructor corresponds
to one raise site (or implicit runtime error) of `watch_data.py`:
* `timeUnitError u` — `ValueError` at line 99: `Invalid time unit: u`;
* `outputDistanceUnitError` — `ValueError` at lines 122/129, message
  `output_distance_unit must be mi or km` (same message at both sites);
* `distanceUnitError u` — `ValueError` at line 131: `Invalid distance unit: u`;
* `timeDiffUnitError u` — `ValueError` at line 200: `Invalid unit: u. ...`;
* `floatParseError s` — `ValueError` from `float(s)` on a non-numeric string;
* `typeError` — `TypeError`, e.g. `float(None)` or dividing by `None`;
* `zeroDivisionError` — `ZeroDivisionError` from division by zero. -/
inductive PyErr where
  | timeUnitError (unit : String)
  | outputDistanceUnitError
  | distanceUnitError (unit : String)
  | timeDiffUnitError (unit : String)
  | floatParseError (s : String)
  | typeError
  | zeroDivisionError
deriving DecidableEq, Repr

/-- An XML element, reduced to its attribute mapping (the only part of an
element the source module reads). -/
structure Element where
  attrs : List (String × String)
deriving DecidableEq, Repr

/-- Models `lxml.etree._Element.get`: the attribute value, or `none` (Python
`None`) when the attribute is absent. -/
def Element.get (e : Element) (key : String) : Option String :=
  e.attrs.lookup key

/-- Python truthiness of a value that is either a `bool` or `None` (the
possible results of a filter function in this module): `None` is falsy. -/
def pyTruthy : Option Bool → Bool
  | some b => b
  | none => false

/-- Value of a list of decimal digit characters. -/
def digitsVal (cs : List Char) : ℕ :=
  cs.foldl (fun n c => 10 * n + (c.toNat - 48)) 0

/-- Parses an unsigned decimal literal (`123`, `12.5`, `.5`, `12.`).  Helper
for `pyFloat`. -/
def parseUnsignedDecimal (cs : List Char) : Option ℚ :=
  let ip := cs.takeWhile Char.isDigit
  let rest := cs.dropWhile Char.isDigit
  match rest with
  | [] => if ip.isEmpty then none else some (digitsVal ip)
  | c :: fs =>
    if c = '.' && fs.all Char.isDigit && (!ip.isEmpty || !fs.isEmpty) then
      some ((digitsVal ip : ℚ) + (digitsVal fs : ℚ) / ((10 : ℚ) ^ fs.length))
    else none

/-- Models Python `float(s)` on a string: strips surrounding whitespace, then
parses an optionally signed plain decimal literal.  (Scientific notation and
`inf`/`nan` are accepted by Python but never occur in the duration attributes
this module reads; they are outside this model.) -/
def pyFloat (s : String) : Option ℚ :=
  match s.trim.data with
  | '-' :: cs => (parseUnsignedDecimal cs).map Neg.neg
  | '+' :: cs => parseUnsignedDecimal cs
  | cs => parseUnsignedDecimal cs

/-- Embedding of `example_filter` (lines 17-29).  The Python function returns
`True`/`False`/`None` (`Option Bool` here) and can raise: when the
`workoutActivityType` check passes it evaluates
`float(element.get('duration'))`, which raises `TypeError` when the attribute
is absent (`float(None)`) and `ValueError` when it is non-numeric; when the
parsed duration is `0.0` the walrus condition is falsy and the function falls
through, returning `None`. -/
def example_filter (element : Element) : Except PyErr (Option Bool) :=
  if element.get "workoutActivityType" = some "HKWorkoutActivityTypeRunning" then
    match element.get "duration" with
    | none => .error .typeError
    | some s =>
      match pyFloat s with
      | none => .error (.floatParseError s)
      | some duration =>
        if duration ≠ 0 then .ok (some (decide ((30 : ℚ) ≤ duration))) else .ok none
  else .ok none

/-- Embedding of the nested `_convert_time` (lines 68-99).  The Python
function returns a float on the listed conversion branches, raises
`ValueError` for an unrecognized `time_unit`, and falls off the end of the
function (returning `None`, modelled as `.ok none`) when `time_unit` is
recognized but no inner branch matches `output_time_unit` — in particular
when the two units are equal. -/
def _convert_time (time : ℚ) (time_unit output_time_unit : String) :
    Except PyErr (Option ℚ) :=
  if time_unit = "seconds" then
    if output_time_unit = "minutes" then .ok (some (time / 60))
    else if output_time_unit = "hours" then .ok (some (time / 3600))
    else .ok none
  else if time_unit = "minutes" then
    if output_time_unit = "seconds" then .ok (some (time * 60))
    else if output_time_unit = "hours" then .ok (some (time / 60))
    else .ok none
  else if time_unit = "hours" then
    if output_time_unit = "seconds" then .ok (some (time * 3600))
    else if output_time_unit = "minutes" then .ok (some (time * 60))
    else .ok none
  else .error (.timeUnitError time_unit)

/-- Embedding of the nested `_convert_distance` (lines 101-131), faithful to
its branch structure: the target-unit check happens inside the branch selected
by the source unit, and an unrecognized source unit raises a distinct error. -/
def _convert_distance (distance : ℚ) (distance_unit output_distance_unit : String) :
    Except PyErr ℚ :=
  if distance_unit = "km" then
    if output_distance_unit = "mi" then .ok (distance * ((621371 : ℚ) / 1000000))
    else if output_distance_unit = "km" then .ok distance
    else .error .outputDistanceUnitError
  else if distance_unit = "mi" then
    if output_distance_unit = "km" then .ok (distance * ((160934 : ℚ) / 100000))
    else if output_distance_unit = "mi" then .ok distance
    else .error .outputDistanceUnitError
  else .error (.distanceUnitError distance_unit)

/-- Embedding of `calculate_speed` (lines 32-147).  Empty output units default
to the corresponding input units; a conversion function is invoked only when
the (defaulted) output unit differs from the input unit; `_convert_time`
returning `None` makes the final `distance / time` a `TypeError` in Python;
division by zero raises `ZeroDivisionError` (Python floats raise rather than
producing infinity). -/
def calculate_speed (distance time : ℚ)
    (distance_unit time_unit output_distance_unit output_time_unit : String) :
    Except PyErr ℚ :=
  let output_distance_unit := if output_distance_unit = "" then distance_unit
    else output_distance_unit
  let output_time_unit := if output_time_unit = "" then time_unit
    else output_time_unit
  match (if distance_unit ≠ output_distance_unit then
          _convert_distance distance distance_unit output_distance_unit
         else .ok distance) with
  | .error e => .error e
  | .ok distance =>
    match (if time_unit ≠ output_time_unit then
            _convert_time time time_unit output_time_unit
           else .ok (some time)) with
    | .error e => .error e
    | .ok none => .error .typeError
    | .ok (some time) =>
      if time = 0 then .error .zeroDivisionError else .ok (distance / time)

/-- A parsed timestamp of the wire format `YYYY-MM-DD HH:MM:SS ±HHMM` (the
result of `datetime.strptime(s, '%Y-%m-%d %H:%M:%S %z')`); the offset is kept
in minutes east of UTC. -/
structure PyDatetime where
  year : ℤ
  month : ℤ
  day : ℤ
  hour : ℤ
  minute : ℤ
  second : ℤ
  tzOffsetMinutes : ℤ
deriving DecidableEq, Repr

/-- Day number of a proleptic-Gregorian civil date, with day 0 at 1970-01-01
(the classic civil-from-days inverse); this is how Python `datetime` date
arithmetic behaves. -/
def daysFromCivil (y m d : ℤ) : ℤ :=
  let y := if m ≤ 2 then y - 1 else y
  let era : ℤ := (if 0 ≤ y then y else y - 399) / 400
  let yoe := y - era * 400
  let doy := (153 * (if 2 < m then m - 3 else m + 9) + 2) / 5 + d - 1
  let doe := yoe * 365 + yoe / 4 - yoe / 100 + doy
  era * 146097 + doe - 719468

/-- The instant of an offset-aware timestamp as seconds since the epoch:
naive seconds minus the UTC offset.  Aware `datetime` subtraction in Python
compares exactly these quantities. -/
def toUTCSeconds (d : PyDatetime) : ℤ :=
  daysFromCivil d.year d.month d.day * 86400
    + d.hour * 3600 + d.minute * 60 + d.second - d.tzOffsetMinutes * 60

/-- Embedding of line 185: `abs((d2 - d1).total_seconds())`. -/
def absolute_difference_in_seconds (d1 d2 : PyDatetime) : ℚ :=
  ((toUTCSeconds d2 - toUTCSeconds d1).natAbs : ℚ)

/-- Embedding of `time_difference` (lines 150-200), over parsed timestamps
(`strptime` of the wire format is Python standard library, see `PyDatetime`). -/
def time_difference (d1 d2 : PyDatetime) (unit : String) : Except PyErr ℚ :=
  let s := absolute_difference_in_seconds d1 d2
  if unit = "seconds" then .ok s
  else if unit = "minutes" then .ok (s / 60)
  else if unit = "hours" then .ok (s / 3600)
  else if unit = "days" then .ok (s / 86400)
  else if unit = "weeks" then .ok (s / 604800)
  else if unit = "years" then .ok (s / 31556926)
  else .error (.timeDiffUnitError unit)

/-- Zero-pads an integer to two digits (as `strftime` does for month/day). -/
def pad2 (n : ℤ) : String :=
  if n < 10 then "0" ++ toString n else toString n

/-- Zero-pads an integer to four digits (as `strftime` does for the year). -/
def pad4 (n : ℤ) : String :=
  if n < 10 then "000" ++ toString n
  else if n < 100 then "00" ++ toString n
  else if n < 1000 then "0" ++ toString n
  else toString n

/-- Embedding of line 234: the calendar-date key
`strptime(creationDate).date().strftime('%Y-%m-%d')` of a parsed timestamp
(the stored local date, not UTC-adjusted — `.date()` reads the naive fields). -/
def dateKey (d : PyDatetime) : String :=
  pad4 d.year ++ "-" ++ pad2 d.month ++ "-" ++ pad2 d.day

/-- A matching workout element as consumed by the aggregation loop of
`plot_speed_by_run` (lines 232-238), with the attributes the loop reads
already parsed: `startDate`, `endDate`, `creationDate` via `strptime` and
`totalDistance` via `float` are Python standard library. -/
structure Run where
  startDate : PyDatetime
  endDate : PyDatetime
  creationDate : PyDatetime
  totalDistance : ℚ
  totalDistanceUnit : String
deriving DecidableEq, Repr

/-- Embedding of the aggregation loop of `plot_speed_by_run` (lines 225-238).
State: `tracker` is the set of date keys already recorded (the source stores
`1` under each recorded key, so `not tracker.get(date_key)` is exactly
non-membership), `results` the `(date, speed)` records so far.  Per the
source, `time_difference` runs before the dedup check; `calculate_speed` runs
only for the first element of each date, with `distance_unit` set to the
element's `totalDistanceUnit` and every other unit argument left defaulted. -/
def plot_speed_by_run_go :
    List Run → List String → List (String × ℚ) → Except PyErr (List (String × ℚ))
  | [], _, results => .ok results
  | run :: rest, tracker, results =>
    match time_difference run.startDate run.endDate "hours" with
    | .error e => .error e
    | .ok time_in_hours =>
      if dateKey run.creationDate ∈ tracker then
        plot_speed_by_run_go rest tracker results
      else
        match calculate_speed run.totalDistance time_in_hours
            run.totalDistanceUnit "hours" "" "" with
        | .error e => .error e
        | .ok speed =>
          plot_speed_by_run_go rest (dateKey run.creationDate :: tracker)
            (results ++ [(dateKey run.creationDate, speed)])

/-- The `(date, speed)` series `plot_speed_by_run` hands to the rendering
sink, built from the filtered run elements. -/
def plot_speed_by_run (runs : List Run) : Except PyErr (List (String × ℚ)) :=
  plot_speed_by_run_go runs [] []

/-- Embedding of the nested `_filter_runs` predicate (lines 216-221): returns
`True` for running workouts and falls through (Python `None`) otherwise. -/
def _filter_runs (element : Element) : Option Bool :=
  if element.get "workoutActivityType" = some "HKWorkoutActivityTypeRunning" then
    some true
  else none

/-- Embedding of the loop state of `filter_elements` (lines 262-268): first
component the `results` list, second component the list of elements on which
`element.clear()` was called (the released non-matches), both in document
order. -/
def filter_elements_scan (filt : Element → Option Bool) :
    List Element → List Element × List Element → List Element × List Element
  | [], acc => acc
  | e :: rest, acc =>
    if pyTruthy (filt e) then
      filter_elements_scan filt rest (acc.1 ++ [e], acc.2)
    else
      filter_elements_scan filt rest (acc.1, acc.2 ++ [e])

/-- Embedding of `filter_elements` (lines 245-270): the list returned to the
caller.  The document source is the list of elements yielded by `iterparse`
over `export.xml` in document order. -/
def filter_elements (doc : List Element) (filt : Element → Option Bool) :
    List Element :=
  (filter_elements_scan filt doc ([], [])).1

/-- The elements `filter_elements` cleared (released) during the scan. -/
def cleared_elements (doc : List Element) (filt : Element → Option Bool) :
    List Element :=
  (filter_elements_scan filt doc ([], [])).2

/-- Specification helper: the distinct values of a list in order of first
appearance, skipping values already in `seen`. -/
def firstOccurrences (seen : List String) : List String → List String
  | [] => []
  | d :: l =>
    if d ∈ seen then firstOccurrences seen l
    else d :: firstOccurrences (d :: seen) l

/-- Example data: a one-hour 10 km run created on 2021-06-01 (UTC offsets 0). -/
def exampleRun1 : Run :=
  ⟨⟨2021, 6, 1, 8, 0, 0, 0⟩, ⟨2021, 6, 1, 9, 0, 0, 0⟩,
   ⟨2021, 6, 1, 9, 0, 0, 0⟩, 10, "km"⟩

/-- Example data: a second, one-hour 5 km run created later the same day. -/
def exampleRun2 : Run :=
  ⟨⟨2021, 6, 1, 18, 0, 0, 0⟩, ⟨2021, 6, 1, 19, 0, 0, 0⟩,
   ⟨2021, 6, 1, 19, 5, 0, 0⟩, 5, "km"⟩

/-- C3: the spec requires `convertTime(v, u, u)` to return the identity value
`v` for every unit `u` in the supported set, but for equal units the source
falls off the end of `_convert_time` and returns `None` (no definite value)
instead — the missing-branch bug the spec flags as a defect to fix. -/
theorem convert_time_same_unit_returns_none (v : ℚ) :
    _convert_time v "seconds" "seconds" = .ok none ∧
    _convert_time v "minutes" "minutes" = .ok none ∧
    _convert_time v "hours" "hours" = .ok none := by
  refine ⟨?_, ?_, ?_⟩ <;> rfl

/-- C5: the spec requires the workout predicate not to raise when an attribute
it looks up is absent, but `example_filter` applied to a running-workout
element with no `duration` attribute evaluates `float(None)` and raises
`TypeError` instead of producing a graceful non-match. -/
theorem example_filter_missing_duration_raises :
    example_filter ⟨[("workoutActivityType", "HKWorkoutActivityTypeRunning")]⟩
      = .error .typeError := by
  rfl

/-- C4 counterexample: the claim says any unsupported unit value is a hard
`InvalidUnit` error for all inputs, but with the unsupported distance unit
`m` and a defaulted output distance unit no conversion is invoked and
`calculate_speed` returns `5.0` normally. -/
theorem calculate_speed_unsupported_unit_accepted :
    calculate_speed 5 1 "m" "hours" "" "" = .ok 5 := by
  norm_num [calculate_speed]

/-- C10: whenever the effective output units equal the input units (each
output unit either empty, hence defaulted, or explicitly equal), a zero time
makes `calculate_speed` fail with `ZeroDivisionError` — for arbitrary unit
strings, so no conversion function is invoked before the failure, and no
infinite value is produced. -/
theorem calculate_speed_zero_time_division_error
    (d : ℚ) (du tu odu otu : String)
    (hd : odu = "" ∨ odu = du) (ht : otu = "" ∨ otu = tu) :
    calculate_speed d 0 du tu odu otu = .error .zeroDivisionError := by
  rcases hd with rfl | rfl <;> rcases ht with rfl | rfl <;>
    simp [calculate_speed]

/-- Witness for `calculate_speed_zero_time_division_error` at the all-defaults
call `calculate_speed(5.0, 0.0)`. -/
theorem calculate_speed_zero_time_division_error_witness :
    calculate_speed 5 0 "km" "hours" "" "" = .error .zeroDivisionError :=
  calculate_speed_zero_time_division_error 5 "km" "hours" "" ""
    (Or.inl rfl) (Or.inl rfl)

/-- C8: `time_difference` is symmetric in its two timestamps for every unit
string (the elapsed seconds are taken in absolute value, and the unit branch
taken — or the error raised — depends only on the unit). -/
theorem time_difference_symmetric (d1 d2 : PyDatetime) (unit : String) :
    time_difference d1 d2 unit = time_difference d2 d1 unit := by
  have h : absolute_difference_in_seconds d1 d2
      = absolute_difference_in_seconds d2 d1 := by
    unfold absolute_difference_in_seconds
    rw [← Int.natAbs_neg, neg_sub]
  simp [time_difference, h]

/-- C6: for the six supported units `time_difference` returns the absolute
elapsed seconds divided by the fixed divisor of that unit (seconds 1,
minutes 60, hours 3600, days 86400, weeks 604800, years 31556926), and any
unit string outside that set fails with the invalid-unit error. -/
theorem time_difference_unit_divisors (d1 d2 : PyDatetime) (unit : String) :
    (unit = "seconds" → time_difference d1 d2 unit
      = .ok (absolute_difference_in_seconds d1 d2 / 1)) ∧
    (unit = "minutes" → time_difference d1 d2 unit
      = .ok (absolute_difference_in_seconds d1 d2 / 60)) ∧
    (unit = "hours" → time_difference d1 d2 unit
      = .ok (absolute_difference_in_seconds d1 d2 / 3600)) ∧
    (unit = "days" → time_difference d1 d2 unit
      = .ok (absolute_difference_in_seconds d1 d2 / 86400)) ∧
    (unit = "weeks" → time_difference d1 d2 unit
      = .ok (absolute_difference_in_seconds d1 d2 / 604800)) ∧
    (unit = "years" → time_difference d1 d2 unit
      = .ok (absolute_difference_in_seconds d1 d2 / 31556926)) ∧
    (unit ∉ (["seconds", "minutes", "hours", "days", "weeks", "years"] : List String) →
      time_difference d1 d2 unit = .error (.timeDiffUnitError unit)) := by
  refine ⟨?_, ?_, ?_, ?_, ?_, ?_, ?_⟩
  · rintro rfl; simp [time_difference]
  · rintro rfl; simp [time_difference]
  · rintro rfl; simp [time_difference]
  · rintro rfl; simp [time_difference]
  · rintro rfl; simp [time_difference]
  · rintro rfl; simp [time_difference]
  · intro h
    simp only [List.mem_cons, List.not_mem_nil, or_false, not_or] at h
    obtain ⟨h1, h2, h3, h4, h5, h6⟩ := h
    simp [time_difference, h1, h2, h3, h4, h5, h6]

/-- Witness for `time_difference_unit_divisors`: a supported unit and an
unsupported one, at concrete timestamps. -/
theorem time_difference_unit_divisors_witness :
    time_difference ⟨1900, 1, 1, 0, 0, 0, -300⟩ ⟨1900, 1, 2, 0, 0, 0, -300⟩ "minutes"
      = .ok (absolute_difference_in_seconds ⟨1900, 1, 1, 0, 0, 0, -300⟩
          ⟨1900, 1, 2, 0, 0, 0, -300⟩ / 60) ∧
    time_difference ⟨1900, 1, 1, 0, 0, 0, -300⟩ ⟨1900, 1, 2, 0, 0, 0, -300⟩ "fortnights"
      = .error (.timeDiffUnitError "fortnights") :=
  ⟨(time_difference_unit_divisors _ _ "minutes").2.1 rfl,
   (time_difference_unit_divisors _ _ "fortnights").2.2.2.2.2.2 (by decide)⟩

/-- C7: unit validation in `_convert_distance` is conditional on the source
unit: a recognized source unit with an unrecognized target raises the shared
output-unit error; an unrecognized source unit raises the distinct
invalid-distance-unit error regardless of the target; equal recognized units
return the value unchanged; and the cross conversions apply the factors
0.621371 (km to mi) and 1.60934 (mi to km). -/
theorem convert_distance_characterization :
    (∀ (v : ℚ) (fu tu : String), (fu = "km" ∨ fu = "mi") → tu ≠ "km" → tu ≠ "mi" →
      _convert_distance v fu tu = .error .outputDistanceUnitError) ∧
    (∀ (v : ℚ) (fu tu : String), fu ≠ "km" → fu ≠ "mi" →
      _convert_distance v fu tu = .error (.distanceUnitError fu)) ∧
    (∀ (v : ℚ) (u : String), (u = "km" ∨ u = "mi") → _convert_distance v u u = .ok v) ∧
    (∀ v : ℚ, _convert_distance v "km" "mi" = .ok (v * ((621371 : ℚ) / 1000000)) ∧
      _convert_distance v "mi" "km" = .ok (v * ((160934 : ℚ) / 100000))) := by
  refine ⟨?_, ?_, ?_, ?_⟩
  · rintro v fu tu (rfl | rfl) h1 h2 <;> simp [_convert_distance, h1, h2]
  · intro v fu tu h1 h2
    simp [_convert_distance, h1, h2]
  · rintro v u (rfl | rfl) <;> rfl
  · intro v
    exact ⟨rfl, rfl⟩

/-- Witness for `convert_distance_characterization`: one instance of each
error branch and one identity conversion. -/
theorem convert_distance_characterization_witness :
    _convert_distance 2 "km" "m" = .error .outputDistanceUnitError ∧
    _convert_distance 2 "furlong" "km" = .error (.distanceUnitError "furlong") ∧
    _convert_distance 2 "mi" "mi" = .ok 2 :=
  ⟨convert_distance_characterization.1 2 "km" "m" (Or.inl rfl) (by decide) (by decide),
   convert_distance_characterization.2.1 2 "furlong" "km" (by decide) (by decide),
   convert_distance_characterization.2.2.1 2 "mi" (Or.inr rfl)⟩

/-- C9: converting a distance from `A` to `B` and back (units among km and
mi) succeeds and returns the original value up to a relative error of at most
3e-6 (the factors 0.621371 and 1.60934 are approximate inverses: their
product is 0.99999720514). -/
theorem convert_distance_round_trip (d : ℚ) (A B : String)
    (hA : A = "km" ∨ A = "mi") (hB : B = "km" ∨ B = "mi") :
    ∃ x y, _convert_distance d A B = .ok x ∧ _convert_distance x B A = .ok y ∧
      |y - d| ≤ 3 / 1000000 * |d| := by
  have hc : |((99999720514 : ℚ) / 100000000000) - 1| ≤ 3 / 1000000 := by
    norm_num [abs_le]
  rcases hA with rfl | rfl <;> rcases hB with rfl | rfl
  · exact ⟨d, d, rfl, rfl, by simp⟩
  · refine ⟨d * ((621371 : ℚ) / 1000000),
      d * ((621371 : ℚ) / 1000000) * ((160934 : ℚ) / 100000), rfl, rfl, ?_⟩
    have he : d * ((621371 : ℚ) / 1000000) * ((160934 : ℚ) / 100000) - d
        = d * (((99999720514 : ℚ) / 100000000000) - 1) := by ring
    rw [he, abs_mul, mul_comm]
    exact mul_le_mul_of_nonneg_right hc (abs_nonneg d)
  · refine ⟨d * ((160934 : ℚ) / 100000),
      d * ((160934 : ℚ) / 100000) * ((621371 : ℚ) / 1000000), rfl, rfl, ?_⟩
    have he : d * ((160934 : ℚ) / 100000) * ((621371 : ℚ) / 1000000) - d
        = d * (((99999720514 : ℚ) / 100000000000) - 1) := by ring
    rw [he, abs_mul, mul_comm]
    exact mul_le_mul_of_nonneg_right hc (abs_nonneg d)
  · exact ⟨d, d, rfl, rfl, by simp⟩

/-- Witness for `convert_distance_round_trip` at 100 km through miles. -/
theorem convert_distance_round_trip_witness :
    ∃ x y, _convert_distance 100 "km" "mi" = .ok x ∧
      _convert_distance x "mi" "km" = .ok y ∧ |y - 100| ≤ 3 / 1000000 * |(100 : ℚ)| :=
  convert_distance_round_trip 100 "km" "mi" (Or.inl rfl) (Or.inr rfl)

/-- When both output units are left empty they default to the input units, no
conversion function is invoked, and `calculate_speed` divides directly —
whatever the unit strings are. -/
theorem calculate_speed_no_conversion (d t : ℚ) (du tu : String) (ht : t ≠ 0) :
    calculate_speed d t du tu "" "" = .ok (d / t) := by
  simp [calculate_speed, ht]

/-- C4 amended: unsupported units are a hard error only when the
corresponding conversion is actually invoked, i.e. when the (defaulted)
output unit differs from the input unit: an unsupported `distance_unit` with
a differing output raises the invalid-distance-unit error; a supported
`distance_unit` with a differing unsupported `output_distance_unit` raises
the output-distance-unit error; an unsupported `time_unit` with a differing
output raises the invalid-time-unit error; a supported `time_unit` with a
differing unsupported `output_time_unit` fails with a `TypeError` (the
conversion returns no value), not an invalid-unit error; and when each output
unit defaults to its input unit, arbitrary — even unsupported — unit strings
are accepted silently and the speed is returned. -/
theorem calculate_speed_unit_error_characterization :
    (∀ (d t : ℚ) (du tu odu otu : String), odu ≠ "" → odu ≠ du →
      du ≠ "km" → du ≠ "mi" →
      calculate_speed d t du tu odu otu = .error (.distanceUnitError du)) ∧
    (∀ (d t : ℚ) (du tu odu otu : String), (du = "km" ∨ du = "mi") →
      odu ≠ "" → odu ≠ "km" → odu ≠ "mi" →
      calculate_speed d t du tu odu otu = .error .outputDistanceUnitError) ∧
    (∀ (d t : ℚ) (du tu otu : String), otu ≠ "" → otu ≠ tu →
      tu ≠ "seconds" → tu ≠ "minutes" → tu ≠ "hours" →
      calculate_speed d t du tu "" otu = .error (.timeUnitError tu)) ∧
    (∀ (d t : ℚ) (du tu otu : String), otu ≠ "" →
      (tu = "seconds" ∨ tu = "minutes" ∨ tu = "hours") →
      otu ≠ "seconds" → otu ≠ "minutes" → otu ≠ "hours" →
      calculate_speed d t du tu "" otu = .error .typeError) ∧
    (∀ (d t : ℚ) (du tu : String), t ≠ 0 →
      calculate_speed d t du tu "" "" = .ok (d / t)) := by
  refine ⟨?_, ?_, ?_, ?_, ?_⟩
  · intro d t du tu odu otu h1 h2 h3 h4
    have h2s : du ≠ odu := fun e => h2 e.symm
    simp [calculate_speed, _convert_distance, h1, h2s, h3, h4]
  · rintro d t du tu odu otu (rfl | rfl) h1 h2 h3
    · have hne : ("km" : String) ≠ odu := fun e => h2 e.symm
      simp [calculate_speed, _convert_distance, h1, h2, h3, hne]
    · have hne : ("mi" : String) ≠ odu := fun e => h3 e.symm
      simp [calculate_speed, _convert_distance, h1, h2, h3, hne]
  · intro d t du tu otu h1 h2 h3 h4 h5
    have h2s : tu ≠ otu := fun e => h2 e.symm
    simp [calculate_speed, _convert_time, h1, h2s, h3, h4, h5]
  · rintro d t du tu otu h1 (rfl | rfl | rfl) h3 h4 h5
    · have hne : ("seconds" : String) ≠ otu := fun e => h3 e.symm
      simp [calculate_speed, _convert_time, h1, h4, h5, hne]
    · have hne : ("minutes" : String) ≠ otu := fun e => h4 e.symm
      simp [calculate_speed, _convert_time, h1, h3, h5, hne]
    · have hne : ("hours" : String) ≠ otu := fun e => h5 e.symm
      simp [calculate_speed, _convert_time, h1, h3, h4, hne]
  · intro d t du tu ht
    exact calculate_speed_no_conversion d t du tu ht

/-- Witness for `calculate_speed_unit_error_characterization`: one concrete
instance of each of its five cases. -/
theorem calculate_speed_unit_error_characterization_witness :
    calculate_speed 5 1 "furlong" "hours" "km" "" = .error (.distanceUnitError "furlong") ∧
    calculate_speed 5 1 "km" "hours" "m" "" = .error .outputDistanceUnitError ∧
    calculate_speed 5 1 "km" "fortnights" "" "hours" = .error (.timeUnitError "fortnights") ∧
    calculate_speed 5 1 "km" "hours" "" "fortnights" = .error .typeError ∧
    calculate_speed 5 1 "m" "parsecs" "" "" = .ok (5 / 1) :=
  ⟨calculate_speed_unit_error_characterization.1 5 1 "furlong" "hours" "km" ""
      (by decide) (by decide) (by decide) (by decide),
   calculate_speed_unit_error_characterization.2.1 5 1 "km" "hours" "m" ""
      (Or.inl rfl) (by decide) (by decide) (by decide),
   calculate_speed_unit_error_characterization.2.2.1 5 1 "km" "fortnights" "hours"
      (by decide) (by decide) (by decide) (by decide) (by decide),
   calculate_speed_unit_error_characterization.2.2.2.1 5 1 "km" "hours" "fortnights"
      (by decide) (Or.inr (Or.inr rfl)) (by decide) (by decide) (by decide),
   calculate_speed_unit_error_characterization.2.2.2.2 5 1 "m" "parsecs" one_ne_zero⟩

/-- The filtering loop in one equation: starting from any accumulator, the
retained elements are the matching ones and the cleared elements the
non-matching ones, each appended in document order. -/
theorem filter_elements_scan_eq (filt : Element → Option Bool) :
    ∀ (doc : List Element) (acc : List Element × List Element),
      filter_elements_scan filt doc acc
        = (acc.1 ++ doc.filter (fun e => pyTruthy (filt e)),
           acc.2 ++ doc.filter (fun e => !pyTruthy (filt e))) := by
  intro doc
  induction doc with
  | nil => intro acc; simp [filter_elements_scan]
  | cons e rest ih =>
    intro acc
    by_cases h : pyTruthy (filt e)
    · simp [filter_elements_scan, h, ih, List.filter_cons]
    · simp [filter_elements_scan, h, ih, List.filter_cons]

/-- C1: `filter_elements` returns exactly the elements the predicate maps to
a definite `True` (Python truthiness), as many as match, in original document
order (a sublist of the document); every element with a non-true predicate
value is cleared and absent from the returned list; and while scanning any
prefix the retained count never exceeds the final match count (bounded
streaming). -/
theorem filter_elements_spec (doc : List Element) (filt : Element → Option Bool) :
    filter_elements doc filt = doc.filter (fun e => pyTruthy (filt e)) ∧
    (filter_elements doc filt).length = doc.countP (fun e => pyTruthy (filt e)) ∧
    (filter_elements doc filt).Sublist doc ∧
    cleared_elements doc filt = doc.filter (fun e => !pyTruthy (filt e)) ∧
    (∀ e ∈ doc, pyTruthy (filt e) = false →
      e ∉ filter_elements doc filt ∧ e ∈ cleared_elements doc filt) ∧
    (∀ pre suf, doc = pre ++ suf →
      (filter_elements pre filt).length ≤ doc.countP (fun e => pyTruthy (filt e))) := by
  have hs := filter_elements_scan_eq filt doc ([], [])
  have h1 : filter_elements doc filt = doc.filter (fun e => pyTruthy (filt e)) := by
    simp [filter_elements, hs]
  have h4 : cleared_elements doc filt = doc.filter (fun e => !pyTruthy (filt e)) := by
    simp [cleared_elements, hs]
  refine ⟨h1, ?_, ?_, h4, ?_, ?_⟩
  · rw [h1, List.countP_eq_length_filter]
  · rw [h1]
    exact List.filter_sublist doc
  · intro e he hf
    constructor
    · rw [h1]
      intro hmem
      have := (List.mem_filter.mp hmem).2
      simp [hf] at this
    · rw [h4]
      exact List.mem_filter.mpr ⟨he, by simp [hf]⟩
  · intro pre suf hd
    have hp : filter_elements pre filt = pre.filter (fun e => pyTruthy (filt e)) := by
      simp [filter_elements, filter_elements_scan_eq filt pre ([], [])]
    rw [hp, hd, List.countP_eq_length_filter, List.filter_append, List.length_append]
    exact Nat.le_add_right _ _

/-- Witness for `filter_elements_spec`: with the run predicate of
`plot_speed_by_run`, a walking workout element is cleared and not returned. -/
theorem filter_elements_spec_witness :
    Element.mk [("workoutActivityType", "HKWorkoutActivityTypeWalking")]
      ∉ filter_elements
        [Element.mk [("workoutActivityType", "HKWorkoutActivityTypeRunning")],
         Element.mk [("workoutActivityType", "HKWorkoutActivityTypeWalking")]] _filter_runs ∧
    Element.mk [("workoutActivityType", "HKWorkoutActivityTypeWalking")]
      ∈ cleared_elements
        [Element.mk [("workoutActivityType", "HKWorkoutActivityTypeRunning")],
         Element.mk [("workoutActivityType", "HKWorkoutActivityTypeWalking")]] _filter_runs :=
  (filter_elements_spec
    [Element.mk [("workoutActivityType", "HKWorkoutActivityTypeRunning")],
     Element.mk [("workoutActivityType", "HKWorkoutActivityTypeWalking")]]
    _filter_runs).2.2.2.2.1
    (Element.mk [("workoutActivityType", "HKWorkoutActivityTypeWalking")])
    (by decide) (by decide)

/-- Membership in `firstOccurrences`: the values of the list not already seen. -/
theorem mem_firstOccurrences (d : String) :
    ∀ (l seen : List String),
      d ∈ firstOccurrences seen l ↔ d ∈ l ∧ d ∉ seen := by
  intro l
  induction l with
  | nil => intro seen; simp [firstOccurrences]
  | cons a l ih =>
    intro seen
    by_cases ha : a ∈ seen
    · simp only [firstOccurrences, if_pos ha, ih, List.mem_cons]
      constructor
      · rintro ⟨hdl, hds⟩
        exact ⟨Or.inr hdl, hds⟩
      · rintro ⟨hda | hdl, hds⟩
        · subst hda; exact absurd ha hds
        · exact ⟨hdl, hds⟩
    · simp only [firstOccurrences, if_neg ha, List.mem_cons, ih]
      constructor
      · rintro (rfl | ⟨hdl, hds⟩)
        · exact ⟨Or.inl rfl, ha⟩
        · exact ⟨Or.inr hdl, fun hseen => hds (Or.inr hseen)⟩
      · rintro ⟨hda | hdl, hds⟩
        · subst hda; exact Or.inl rfl
        · by_cases hda : d = a
          · subst hda; exact Or.inl rfl
          · exact Or.inr ⟨hdl, by simp [List.mem_cons, hda, hds]⟩

/-- `firstOccurrences` never lists a value twice. -/
theorem firstOccurrences_nodup :
    ∀ (l seen : List String), (firstOccurrences seen l).Nodup := by
  intro l
  induction l with
  | nil => intro seen; simp [firstOccurrences]
  | cons a l ih =>
    intro seen
    by_cases ha : a ∈ seen
    · simp only [firstOccurrences, if_pos ha]
      exact ih seen
    · simp only [firstOccurrences, if_neg ha]
      refine List.nodup_cons.mpr ⟨?_, ih (a :: seen)⟩
      intro hmem
      exact ((mem_firstOccurrences a l (a :: seen)).mp hmem).2 (List.mem_cons_self a seen)

/-- Distinct instants give a non-zero elapsed hour count. -/
theorem absolute_difference_ne_zero (d1 d2 : PyDatetime)
    (h : toUTCSeconds d1 ≠ toUTCSeconds d2) :
    absolute_difference_in_seconds d1 d2 / 3600 ≠ 0 := by
  unfold absolute_difference_in_seconds
  have hd : toUTCSeconds d2 - toUTCSeconds d1 ≠ 0 := sub_ne_zero.mpr (Ne.symm h)
  have hn : (toUTCSeconds d2 - toUTCSeconds d1).natAbs ≠ 0 := Int.natAbs_ne_zero.mpr hd
  exact div_ne_zero (Nat.cast_ne_zero.mpr hn) (by norm_num)

/-- Invariant of the aggregation loop: from any tracker and accumulated
records, provided no run has equal start and end instants, the loop succeeds
and appends one record per not-yet-tracked date in order of first appearance,
each record carrying the speed of the first run of its date. -/
theorem plot_speed_by_run_go_spec :
    ∀ (runs : List Run) (tracker : List String) (results : List (String × ℚ)),
      (∀ r ∈ runs, toUTCSeconds r.startDate ≠ toUTCSeconds r.endDate) →
      ∃ recs, plot_speed_by_run_go runs tracker results = .ok (results ++ recs) ∧
        recs.map Prod.fst
          = firstOccurrences tracker (runs.map (fun r => dateKey r.creationDate)) ∧
        ∀ p ∈ recs, p.1 ∉ tracker ∧
          ∃ r, runs.find? (fun r => dateKey r.creationDate == p.1) = some r ∧
            ∃ t, time_difference r.startDate r.endDate "hours" = .ok t ∧
              calculate_speed r.totalDistance t r.totalDistanceUnit "hours" "" ""
                = .ok p.2 := by
  intro runs
  induction runs with
  | nil =>
    intro tracker results _
    exact ⟨[], by simp [plot_speed_by_run_go], by simp [firstOccurrences], by simp⟩
  | cons run rest ih =>
    intro tracker results h
    have hrun := h run (List.mem_cons_self _ _)
    have hrest : ∀ r ∈ rest, toUTCSeconds r.startDate ≠ toUTCSeconds r.endDate :=
      fun r hr => h r (List.mem_cons_of_mem _ hr)
    have htd : time_difference run.startDate run.endDate "hours"
        = .ok (absolute_difference_in_seconds run.startDate run.endDate / 3600) := rfl
    have htne : absolute_difference_in_seconds run.startDate run.endDate / 3600 ≠ 0 :=
      absolute_difference_ne_zero _ _ hrun
    by_cases hmem : dateKey run.creationDate ∈ tracker
    · obtain ⟨recs, hgo, hmap, hall⟩ := ih tracker results hrest
      refine ⟨recs, ?_, ?_, ?_⟩
      · simp only [plot_speed_by_run_go, htd, if_pos hmem, hgo]
      · rw [hmap]
        simp [firstOccurrences, hmem]
      · intro p hp
        obtain ⟨hnt, r, hfind, hex⟩ := hall p hp
        refine ⟨hnt, r, ?_, hex⟩
        have hne : (dateKey run.creationDate == p.1) = false :=
          beq_eq_false_iff_ne.mpr (fun e => hnt (e ▸ hmem))
        rw [List.find?_cons_of_neg _ (by simp [hne]), hfind]
    · obtain ⟨recs, hgo, hmap, hall⟩ := ih (dateKey run.creationDate :: tracker)
        (results ++ [(dateKey run.creationDate,
          run.totalDistance
            / (absolute_difference_in_seconds run.startDate run.endDate / 3600))]) hrest
      have hcs := calculate_speed_no_conversion run.totalDistance
        (absolute_difference_in_seconds run.startDate run.endDate / 3600)
        run.totalDistanceUnit "hours" htne
      refine ⟨(dateKey run.creationDate,
        run.totalDistance
          / (absolute_difference_in_seconds run.startDate run.endDate / 3600)) :: recs,
        ?_, ?_, ?_⟩
      · simp only [plot_speed_by_run_go, htd, if_neg hmem, hcs, hgo,
          List.append_assoc, List.singleton_append]
      · simp only [List.map_cons, hmap, List.map]
        simp [firstOccurrences, hmem]
      · intro p hp
        rcases List.mem_cons.mp hp with rfl | hp2
        · refine ⟨hmem, run, ?_, ?_⟩
          · exact List.find?_cons_of_pos _ (by simp)
          · exact ⟨_, htd, hcs⟩
        · obtain ⟨hnt, r, hfind, hex⟩ := hall p hp2
          have hne : p.1 ≠ dateKey run.creationDate :=
            fun e => hnt (e ▸ List.mem_cons_self _ _)
          have hnt2 : p.1 ∉ tracker := fun e => hnt (List.mem_cons_of_mem _ e)
          refine ⟨hnt2, r, ?_, hex⟩
          have hbeq : (dateKey run.creationDate == p.1) = false :=
            beq_eq_false_iff_ne.mpr (fun e => hne e.symm)
          rw [List.find?_cons_of_neg _ (by simp [hbeq]), hfind]

/-- C2: with every run having distinct start and end instants, the aggregator
succeeds and produces exactly one record per distinct calendar date of
`creationDate` (no date twice, every date present), the dates appearing in
order of first appearance during the scan, and each record carrying the speed
computed from the first run of its date in document order (later runs of the
same date contribute nothing). -/
theorem plot_speed_by_run_first_wins (runs : List Run)
    (h : ∀ r ∈ runs, toUTCSeconds r.startDate ≠ toUTCSeconds r.endDate) :
    ∃ recs, plot_speed_by_run runs = .ok recs ∧
      (recs.map Prod.fst).Nodup ∧
      recs.map Prod.fst
        = firstOccurrences [] (runs.map (fun r => dateKey r.creationDate)) ∧
      (∀ r ∈ runs, dateKey r.creationDate ∈ recs.map Prod.fst) ∧
      ∀ p ∈ recs, ∃ r, runs.find? (fun r => dateKey r.creationDate == p.1) = some r ∧
        ∃ t, time_difference r.startDate r.endDate "hours" = .ok t ∧
          calculate_speed r.totalDistance t r.totalDistanceUnit "hours" "" ""
            = .ok p.2 := by
  obtain ⟨recs, hgo, hmap, hall⟩ := plot_speed_by_run_go_spec runs [] [] h
  refine ⟨recs, ?_, ?_, hmap, ?_, ?_⟩
  · simpa [plot_speed_by_run] using hgo
  · rw [hmap]
    exact firstOccurrences_nodup _ _
  · intro r hr
    rw [hmap]
    exact (mem_firstOccurrences _ _ _).mpr
      ⟨List.mem_map_of_mem _ hr, List.not_mem_nil _⟩
  · intro p hp
    obtain ⟨_, r, hfind, hex⟩ := hall p hp
    exact ⟨r, hfind, hex⟩

/-- Witness for `plot_speed_by_run_first_wins`: two runs on the same calendar
date, each one hour long. -/
theorem plot_speed_by_run_first_wins_witness :
    ∃ recs, plot_speed_by_run [exampleRun1, exampleRun2] = .ok recs ∧
      (recs.map Prod.fst).Nodup ∧
      recs.map Prod.fst
        = firstOccurrences []
            (List.map (fun r => dateKey r.creationDate) [exampleRun1, exampleRun2]) ∧
      (∀ r ∈ [exampleRun1, exampleRun2], dateKey r.creationDate ∈ recs.map Prod.fst) ∧
      ∀ p ∈ recs, ∃ r,
        List.find? (fun r => dateKey r.creationDate == p.1) [exampleRun1, exampleRun2]
          = some r ∧
        ∃ t, time_difference r.startDate r.endDate "hours" = .ok t ∧
          calculate_speed r.totalDistance t r.totalDistanceUnit "hours" "" ""
            = .ok p.2 :=
  plot_speed_by_run_first_wins [exampleRun1, exampleRun2] (by decide)
